import Mathlib

/-!
Verification development for the dual-channel e-commerce event simulator
(`app.py`).  Python floats are modelled as rationals (`ℚ`), Python dicts as
association lists in insertion order, JSON values as the inductive `Val`,
and every fallible Python computation as `Except`/`Option`.  The module-level
RNG is modelled by passing the stream of `random()` draws (`ℕ → ℚ`) or a
single draw explicitly.
-/

namespace MetaDemo

/-- JSON-like runtime value, the shallow embedding of the Python objects the
simulator manipulates (floats as `ℚ`). -/
inductive Val where
  | null : Val
  | bool : Bool → Val
  | num : ℚ → Val
  | str : String → Val
  | arr : List Val → Val
  | obj : List (String × Val) → Val

/-- Dict lookup on an association list (Python `d.get(k)` / `k in d`). -/
def lookupA (k : String) : List (String × Val) → Option Val
  | [] => none
  | (k₁, v) :: t => if k₁ = k then some v else lookupA k t

/-- Python `k in d`. -/
def hasA (k : String) (l : List (String × Val)) : Bool :=
  (lookupA k l).isSome

/-- Python `d[k] = v`: replace in place if the key exists, else append
(insertion order is preserved, as for Python dicts). -/
def setA (k : String) (v : Val) : List (String × Val) → List (String × Val)
  | [] => [(k, v)]
  | (k₁, v₁) :: t => if k₁ = k then (k, v) :: t else (k₁, v₁) :: setA k v t

/-- Python `d.pop(k, None)`. -/
def popA (k : String) : List (String × Val) → List (String × Val)
  | [] => []
  | (k₁, v₁) :: t => if k₁ = k then t else (k₁, v₁) :: popA k t

/-- Python `float(v)`.  Numbers convert to themselves and booleans to 0/1
(in Python `bool` is an `int` subtype).  `float` of `None`, lists and dicts
raises, modelled as `none`.  (Numeric strings, which Python would also parse,
are not modelled; no claim depends on string-encoded numbers.) -/
def floatOfVal : Val → Option ℚ
  | .num q => some q
  | .bool b => some (if b then 1 else 0)
  | _ => none

/-- Python `int()` truncation toward zero of a rational. -/
def pyTrunc (q : ℚ) : ℤ :=
  if 0 ≤ q then ⌊q⌋ else -⌊-q⌋

/-- Python `int(v)`: numbers truncate toward zero, booleans to 0/1; `None`,
strings of non-integers, lists and dicts raise (`none`). -/
def intOfVal : Val → Option ℤ
  | .num q => some (pyTrunc q)
  | .bool b => some (if b then 1 else 0)
  | _ => none

/-- Round half to even at integer precision, the rounding Python `round`
uses (idealized over exact decimals; no claim evaluates it at a tie or at
a value where binary-float error could flip the result). -/
def roundHalfEven (x : ℚ) : ℤ :=
  if x - x.floor < 1/2 then x.floor
  else if 1/2 < x - x.floor then x.floor + 1
  else if x.floor % 2 = 0 then x.floor else x.floor + 1

/-- Python `round(x, 2)`. -/
def round2 (x : ℚ) : ℚ :=
  (roundHalfEven (100 * x) : ℚ) / 100

/-- `rand_uniform(a, b)` from `app.py` with the RNG draw `u = _rng.random()`
made explicit: operands are swapped when `a > b`, then `u * (hi - lo) + lo`. -/
def rand_uniform (a b u : ℚ) : ℚ :=
  let lo := if a ≤ b then a else b
  let hi := if a ≤ b then b else a
  u * (hi - lo) + lo

/-- Per kill-switch flags of `CONFIG["kill_event_types"]`. -/
structure KillMap where
  pageView : Bool
  viewContent : Bool
  addToCart : Bool
  initiateCheckout : Bool
  purchase : Bool
  returnInitiated : Bool

/-- The runtime configuration dictionary `CONFIG` of `app.py`, with the same
field names; floats as `ℚ`, integer counters as `ℤ`. -/
structure Cfg where
  rps : ℚ
  p_add_to_cart : ℚ
  p_begin_checkout : ℚ
  p_purchase : ℚ
  product_catalog_size : ℤ
  price_min : ℚ
  price_max : ℚ
  currency_override : String
  free_shipping_threshold : ℚ
  shipping_options : List ℚ
  tax_rate : ℚ
  enable_pixel : Bool
  enable_capi : Bool
  null_price : Bool
  null_currency : Bool
  null_event_id : Bool
  append_margin : Bool
  cost_pct_min : ℚ
  cost_pct_max : ℚ
  append_pltv : Bool
  pltv_min : ℚ
  pltv_max : ℚ
  seed : String
  mismatch_value_pct : ℚ
  mismatch_currency : String
  desync_event_id : Bool
  duplicate_event_id_n : ℤ
  drop_pixel_every_n : ℤ
  lag_capi_seconds : ℚ
  net_capi_latency_ms : ℤ
  net_capi_error_rate : ℚ
  schema_remove_contents : Bool
  schema_empty_arrays : Bool
  schema_str_numbers : Bool
  schema_unknown_fields : Bool
  clock_skew_seconds : ℤ
  kill_event_types : KillMap
  enable_webhook : Bool
  enable_ga4 : Bool
  active_preset : String

/-- The boot-time defaults of `CONFIG` in `app.py` (also `DEFAULT_CONFIG`). -/
def defaultConfig : Cfg where
  rps := 1/2
  p_add_to_cart := 35/100
  p_begin_checkout := 70/100
  p_purchase := 70/100
  product_catalog_size := 200
  price_min := 10
  price_max := 120
  currency_override := "AUTO"
  free_shipping_threshold := 75
  shipping_options := [499/100, 699/100, 999/100]
  tax_rate := 8/100
  enable_pixel := true
  enable_capi := true
  null_price := false
  null_currency := false
  null_event_id := false
  append_margin := true
  cost_pct_min := 40/100
  cost_pct_max := 80/100
  append_pltv := true
  pltv_min := 120
  pltv_max := 600
  seed := ""
  mismatch_value_pct := 0
  mismatch_currency := "NONE"
  desync_event_id := false
  duplicate_event_id_n := 0
  drop_pixel_every_n := 0
  lag_capi_seconds := 0
  net_capi_latency_ms := 0
  net_capi_error_rate := 0
  schema_remove_contents := false
  schema_empty_arrays := false
  schema_str_numbers := false
  schema_unknown_fields := false
  clock_skew_seconds := 0
  kill_event_types := ⟨false, false, false, false, false, false⟩
  enable_webhook := false
  enable_ga4 := false
  active_preset := "Default"

/-- The cost-fraction draw inside `_rand_cost`:
`lo = max(0.0, cost_pct_min); hi = max(lo, cost_pct_max); pct = rand_uniform(lo, hi)`. -/
def cost_pct_draw (cfg : Cfg) (u : ℚ) : ℚ :=
  let lo := max 0 cfg.cost_pct_min
  let hi := max lo cfg.cost_pct_max
  rand_uniform lo hi u

/-- `_rand_cost(price, cfg)` from `app.py`: `None` when `float(price)` raises,
else `max(0.0, round(p * pct, 2))` with `pct` drawn by `cost_pct_draw`. -/
def rand_cost (price : Val) (cfg : Cfg) (u : ℚ) : Option ℚ :=
  match floatOfVal price with
  | none => none
  | some p => some (max 0 (round2 (p * cost_pct_draw cfg u)))

/-- One pass of the loop of `_margin_from_contents`: parse
`float(c.get("item_price"))` and `float(c.get("quantity", 1))`; on failure
skip the line (no RNG draw); otherwise draw a cost and accumulate
`max(0.0, price - cost) * max(0.0, qty)`.  Returns the pre-rounding sum and
the remaining draw stream. -/
def marginLoop (cfg : Cfg) : List (List (String × Val)) → (ℕ → ℚ) → ℚ × (ℕ → ℚ)
  | [], us => (0, us)
  | c :: t, us =>
    match floatOfVal ((lookupA "item_price" c).getD .null),
          floatOfVal ((lookupA "quantity" c).getD (.num 1)) with
    | some price, some qty =>
      let cost := max 0 (round2 (price * cost_pct_draw cfg (us 0)))
      let rest := marginLoop cfg t (fun n => us (n + 1))
      (max 0 (price - cost) * max 0 qty + rest.1, rest.2)
    | _, _ => marginLoop cfg t us

/-- `_margin_from_contents(contents, cfg)` from `app.py` (RNG draws passed as
a stream, one per successfully parsed line): `round(total, 2)`. -/
def margin_from_contents (contents : List (List (String × Val))) (cfg : Cfg)
    (us : ℕ → ℚ) : ℚ :=
  round2 (marginLoop cfg contents us).1

/-- The PLTV draw inside `append_margin_pltv`:
`lo = pltv_min; hi = pltv_max; if hi < lo: hi = lo; rand_uniform(lo, hi)`. -/
def pltv_draw (cfg : Cfg) (u : ℚ) : ℚ :=
  let lo := cfg.pltv_min
  let hi := if cfg.pltv_max < lo then lo else cfg.pltv_max
  rand_uniform lo hi u

/-- `append_margin_pltv(custom_data, cfg, single_price, contents)` from
`app.py`.  Adds `margin` (from `contents` when non-empty, else from
`single_price` when parseable) and `predicted_ltv`.  Returns the updated
dict and the remaining draw stream. -/
def append_margin_pltv (custom_data : List (String × Val)) (cfg : Cfg)
    (single_price : Option Val) (contents : List (List (String × Val)))
    (us : ℕ → ℚ) : List (String × Val) × (ℕ → ℚ) :=
  let step1 : List (String × Val) × (ℕ → ℚ) :=
    if cfg.append_margin then
      if ¬ contents.isEmpty then
        let r := marginLoop cfg contents us
        (setA "margin" (.num (round2 r.1)) custom_data, r.2)
      else
        match single_price with
        | none => (custom_data, us)
        | some sp =>
          match floatOfVal sp with
          | none => (custom_data, us)
          | some price =>
            let cost := max 0 (round2 (price * cost_pct_draw cfg (us 0)))
            (setA "margin" (.num (round2 (max 0 (price - cost)))) custom_data,
             fun n => us (n + 1))
    else (custom_data, us)
  if cfg.append_pltv then
    (setA "predicted_ltv" (.num (round2 (pltv_draw cfg (step1.2 0)))) step1.1,
     fun n => step1.2 (n + 1))
  else step1

/-- `_apply_currency_override(cur, cfg, channel)` from `app.py`.  `cur` is the
session currency (`none` models Python `None`); Python truthiness of strings
(empty string is falsy) is preserved. -/
def apply_currency_override (cur : Option String) (cfg : Cfg)
    (channel : String) : Option String :=
  let ov := (if cfg.currency_override = "" then "AUTO" else cfg.currency_override).toUpper
  let mm := (if cfg.mismatch_currency = "" then "NONE" else cfg.mismatch_currency).toUpper
  let truthy : Bool := match cur with | some s => s ≠ "" | none => false
  if mm = "PIXEL" ∧ channel = "pixel" then
    (if truthy then none else some "USD")
  else if mm = "CAPI" ∧ channel = "capi" then
    (if truthy then none else some "USD")
  else if ov = "NULL" then none
  else if ov ≠ "AUTO" then some ov
  else cur

mutual

/-- The value transformer of `_maybe_str_nums`: numbers (including booleans,
which are `int`s in Python) become their string form, containers recurse.
The exact Python float formatting is not modelled (no claim reads the
produced string). -/
def strNumsVal : Val → Val
  | .num q => .str (toString q)
  | .bool b => .str (if b then "True" else "False")
  | .arr xs => .arr (strNumsList xs)
  | .obj fs => .obj (strNumsObj fs)
  | .null => .null
  | .str s => .str s

/-- `_maybe_str_nums` over a JSON array. -/
def strNumsList : List Val → List Val
  | [] => []
  | x :: t => strNumsVal x :: strNumsList t

/-- `_maybe_str_nums` over a JSON object. -/
def strNumsObj : List (String × Val) → List (String × Val)
  | [] => []
  | (k, v) :: t => (k, strNumsVal v) :: strNumsObj t

end

/-- `_maybe_str_nums(obj, cfg)` from `app.py`: identity unless
`schema_str_numbers` is set. -/
def maybe_str_nums (cfg : Cfg) (v : Val) : Val :=
  if cfg.schema_str_numbers then strNumsVal v else v

/-- `_schema_mutations(custom_data, cfg)` from `app.py` (empty dicts are
falsy in Python, hence returned unchanged). -/
def schema_mutations (custom_data : List (String × Val)) (cfg : Cfg) :
    List (String × Val) :=
  if custom_data.isEmpty then custom_data else
  let cd := if cfg.schema_remove_contents then popA "contents" custom_data
            else custom_data
  let cd := if cfg.schema_empty_arrays then
              let cd := if hasA "contents" cd then setA "contents" (.arr []) cd else cd
              if hasA "content_ids" cd then setA "content_ids" (.arr []) cd else cd
            else cd
  if cfg.schema_unknown_fields then setA "unknown_field_xyz" (.str "foo") cd
  else cd

/-- `BASE_URL` of `app.py` (default environment value, already without a
trailing slash so `rstrip` is the identity on it). -/
def base_url : String := "http://127.0.0.1:5000"

/-- `sha256_norm(s)` from `app.py`: normalizes by strip + lowercase; the
SHA-256 hex digest itself is modelled abstractly by tagging the normalized
string (no claim inspects the digest). -/
def sha256_norm (s : String) : String :=
  "sha256:" ++ s.trim.toLower

/-- A `product` dict as produced by `_make_product` or carried by an input
event: `product_id` and a `price` value (possibly malformed). -/
structure ProductV where
  product_id : String
  price : Val

/-- A `line_item`/cart-line dict: `product_id`, `qty` and `price` values
(possibly malformed). -/
structure LineItemV where
  product_id : String
  qty : Val
  price : Val

/-- The simulated-event dict consumed by `map_sim_event_to_capi`.  `Option`
models an absent key.  The timestamp models `iso_to_unix(e["timestamp"])`:
`none` is a missing key (KeyError), `some none` a present but unparseable ISO
string (ValueError), `some (some t)` a string parsing to unix time `t`
(ISO-8601 parsing itself is external and modelled by its outcome). -/
structure SimEvent where
  event_type : Option String
  event_id : Option String
  timestamp : Option (Option ℤ)
  user_id : Option String
  context_currency : Option (Option String)
  page : Option String
  product : Option ProductV
  line_item : Option LineItemV
  cart : Option (List LineItemV)
  items : Option (List LineItemV)
  total : Option Val
  product_id : Option String
  order_id : Option String

/-- `Option String` rendered as a JSON value (`None` → null). -/
def optStr : Option String → Val
  | some s => .str s
  | none => .null

/-- `build_contents(lines)` from `app.py`:
`{"id": …, "quantity": int(li["qty"]), "item_price": float(li["price"])}`,
propagating the int/float exceptions. -/
def build_contents : List LineItemV → Except String (List (List (String × Val)))
  | [] => .ok []
  | li :: t => do
    let q ← match intOfVal li.qty with
            | some q => pure q
            | none => throw "int conversion failed"
    let p ← match floatOfVal li.price with
            | some p => pure p
            | none => throw "float conversion failed"
    let rest ← build_contents t
    pure ([("id", .str li.product_id), ("quantity", .num (q : ℚ)),
           ("item_price", .num p)] :: rest)

/-- The null-currency part of the bad-data toggle loop of
`map_sim_event_to_capi`: null `currency` when the key is present. -/
def bad_data_currency (cfg : Cfg) (cd : List (String × Val)) :
    List (String × Val) :=
  if cfg.null_currency ∧ hasA "currency" cd then setA "currency" .null cd
  else cd

/-- One contents entry under the null-price toggle: a dict with an
`item_price` key gets it nulled. -/
def nullItemPrice (c : Val) : Val :=
  match c with
  | .obj l => if hasA "item_price" l then .obj (setA "item_price" .null l)
              else .obj l
  | x => x

/-- The contents part of the null-price toggle: when `contents` is a list,
null the `item_price` of each entry. -/
def bad_data_contents (cd : List (String × Val)) : List (String × Val) :=
  match lookupA "contents" cd with
  | some (.arr cs) => setA "contents" (.arr (cs.map nullItemPrice)) cd
  | _ => cd

/-- The null-price part of the bad-data loop: null `value` when present and
null the `item_price` of every contents entry. -/
def bad_data_price (cfg : Cfg) (cd : List (String × Val)) :
    List (String × Val) :=
  if cfg.null_price then
    bad_data_contents (if hasA "value" cd then setA "value" .null cd else cd)
  else cd

/-- The per-event bad-data toggle loop at the end of `map_sim_event_to_capi`:
null out `event_id`, apply the currency and price null-injections to
`custom_data` (Python `ev.get("custom_data") or {}`), then write
`custom_data` back. -/
def bad_data_ev (cfg : Cfg) (ev : List (String × Val)) : List (String × Val) :=
  let ev := if cfg.null_event_id then setA "event_id" .null ev else ev
  let cd := match lookupA "custom_data" ev with
            | some (.obj l) => l
            | _ => []
  setA "custom_data" (.obj (bad_data_price cfg (bad_data_currency cfg cd))) ev

/-- The `base` dict of `map_sim_event_to_capi` (client IP and user agent as
in the no-request-context branch). -/
def capi_base (e : SimEvent) (tsUnix : ℤ) (url : String) : List (String × Val) :=
  [("event_time", .num (tsUnix : ℚ)),
   ("event_id", optStr e.event_id),
   ("action_source", .str "website"),
   ("event_source_url", .str url),
   ("user_data", .obj
     [("external_id", .str (sha256_norm (e.user_id.getD ""))),
      ("client_ip_address", .str "127.0.0.1"),
      ("client_user_agent", .str "AutoRunner/1.0")])]

/-- The stage dispatch of `map_sim_event_to_capi`, producing the list of
event dicts before the bad-data loop and `_maybe_str_nums`.  Exceptions of
the Python code (missing keys, failing float/int conversions) are `throw`. -/
def map_capi_core (e : SimEvent) (cfg : Cfg) (us : ℕ → ℚ) :
    Except String (List (List (String × Val))) := do
  let cur0 : Option String := (e.context_currency).getD (some "USD")
  let cur := apply_currency_override cur0 cfg "capi"
  let t ← match e.timestamp with
          | some (some t) => pure t
          | some none => throw "ValueError: invalid isoformat string"
          | none => throw "KeyError: timestamp"
  let tsUnix := t + cfg.clock_skew_seconds
  let page0 := match e.page with
               | some p => if p = "" then "/" else p
               | none => "/"
  let page := if e.event_type = some "product_view" ∧ e.product.isSome then
                match e.product with
                | some p => "/product/" ++ p.product_id
                | none => page0
              else if e.event_type = some "add_to_cart" ∨
                      e.event_type = some "begin_checkout" ∨
                      e.event_type = some "purchase" then "/checkout"
              else page0
  let url := base_url ++ page
  let base := capi_base e tsUnix url
  if e.event_type = some "page_view" then
    pure [base ++ [("event_name", .str "PageView")]]
  else if e.event_type = some "product_view" then do
    let p ← match e.product with
            | some p => pure p
            | none => throw "KeyError: product"
    let priceQ ← match floatOfVal p.price with
                 | some q => pure q
                 | none => throw "float conversion failed"
    let cd := [("content_type", .str "product"),
               ("content_ids", .arr [.str p.product_id]),
               ("value", .num priceQ),
               ("currency", optStr cur)]
    let cd := (append_margin_pltv cd cfg (some (.num priceQ)) [] us).1
    let cd := schema_mutations cd cfg
    pure [base ++ [("event_name", .str "ViewContent"), ("custom_data", .obj cd)]]
  else if e.event_type = some "add_to_cart" then do
    let li ← match e.line_item with
             | some li => pure li
             | none => throw "KeyError: line_item"
    let q ← match intOfVal li.qty with
            | some q => pure q
            | none => throw "int conversion failed"
    let qF ← match floatOfVal li.qty with
             | some q => pure q
             | none => throw "float conversion failed"
    let p ← match floatOfVal li.price with
            | some p => pure p
            | none => throw "float conversion failed"
    let contents := [[("id", .str li.product_id), ("quantity", .num (q : ℚ)),
                      ("item_price", .num p)]]
    let cd := [("content_type", .str "product"),
               ("content_ids", .arr [.str li.product_id]),
               ("contents", .arr (contents.map Val.obj)),
               ("value", .num (qF * p)),
               ("currency", optStr cur)]
    let cd := (append_margin_pltv cd cfg none contents us).1
    let cd := schema_mutations cd cfg
    pure [base ++ [("event_name", .str "AddToCart"), ("custom_data", .obj cd)]]
  else if e.event_type = some "begin_checkout" then do
    let cart ← match e.cart with
               | some c => pure c
               | none => throw "KeyError: cart"
    let contents ← build_contents cart
    let total ← match floatOfVal ((e.total).getD (.num 0)) with
                | some q => pure q
                | none => throw "float conversion failed"
    let cd := [("contents", .arr (contents.map Val.obj)),
               ("value", .num total),
               ("currency", optStr cur)]
    let cd := (append_margin_pltv cd cfg none contents us).1
    let cd := schema_mutations cd cfg
    pure [base ++ [("event_name", .str "InitiateCheckout"), ("custom_data", .obj cd)]]
  else if e.event_type = some "purchase" then do
    let items ← match e.items with
                | some c => pure c
                | none => throw "KeyError: items"
    let contents ← build_contents items
    let total ← match floatOfVal ((e.total).getD (.num 0)) with
                | some q => pure q
                | none => throw "float conversion failed"
    let cd := [("contents", .arr (contents.map Val.obj)),
               ("value", .num total),
               ("currency", optStr cur)]
    let cd := (append_margin_pltv cd cfg none contents us).1
    let cd := schema_mutations cd cfg
    pure [base ++ [("event_name", .str "Purchase"), ("custom_data", .obj cd)]]
  else if e.event_type = some "return_initiated" then do
    let ids : List Val := match e.product_id with
                          | some s => if s = "" then [] else [.str s]
                          | none => []
    let cd := [("content_type", .str "product"),
               ("content_ids", .arr ids),
               ("value", .num 0),
               ("currency", optStr cur)]
    let cd := (append_margin_pltv cd cfg (some (.num 0)) [] us).1
    let cd := schema_mutations cd cfg
    pure [base ++ [("event_name", .str "ReturnInitiated"), ("custom_data", .obj cd)]]
  else
    pure []

/-- `map_sim_event_to_capi(e, cfg)` from `app.py`: the stage dispatch
followed by the bad-data toggle loop and `_maybe_str_nums` over each
produced event. -/
def map_sim_event_to_capi (e : SimEvent) (cfg : Cfg) (us : ℕ → ℚ) :
    Except String (List Val) := do
  let core ← map_capi_core e cfg us
  pure (core.map fun ev => maybe_str_nums cfg (.obj (bad_data_ev cfg ev)))

/-- The `DEDUP` dict of `app.py`: the per-channel id sets and the derived
counts stored alongside them. -/
structure DedupState where
  pixel_ids : Finset String
  capi_ids : Finset String
  matched : ℕ
  pixel_only : ℕ
  capi_only : ℕ

/-- `DEDUP` at boot: empty sets, zero counts. -/
def dedupInit : DedupState :=
  ⟨∅, ∅, 0, 0, 0⟩

/-- The fields of an `EVENT_LOG` entry that `_log_event` reads. -/
structure LogEntry where
  channel : String
  event_name : String
  ok : Bool
  event_id : Option String

/-- The dedup part of `_log_event(entry)` from `app.py`: when
`entry.get("event_id") or ""` is non-empty, add the id to the matching
channel set and recompute `matched`/`pixel_only`/`capi_only` from the sets
(`common = pixel ∩ capi`; differences are taken against `common`). -/
def log_event_dedup (s : DedupState) (e : LogEntry) : DedupState :=
  let eid := e.event_id.getD ""
  if eid = "" then s
  else
    let px := if e.channel = "pixel" then insert eid s.pixel_ids else s.pixel_ids
    let cp := if e.channel = "pixel" then s.capi_ids
              else if e.channel = "capi" then insert eid s.capi_ids
              else s.capi_ids
    let common := px ∩ cp
    { pixel_ids := px, capi_ids := cp, matched := common.card,
      pixel_only := (px \ common).card, capi_only := (cp \ common).card }

/-- The log entry built by the `/metrics/pixel` endpoint (`metrics_pixel` in
`app.py`) for a browser dispatch attempt: channel `"pixel"`, `ok` is the
negation of the client-reported `dropped` flag, and the client-sent event id
is carried through unchanged. -/
def metrics_pixel_entry (name : String) (eventId : Option String)
    (dropped : Bool) : LogEntry :=
  { channel := "pixel", event_name := name, ok := !dropped, event_id := eventId }

/-- The funnel stages of `_send_simulated_session_once`. -/
inductive Stage where
  | page_view
  | product_view
  | add_to_cart
  | begin_checkout
  | purchase
deriving DecidableEq

/-- The full funnel, in emission order. -/
def fullFunnel : List Stage :=
  [.page_view, .product_view, .add_to_cart, .begin_checkout, .purchase]

/-- The sequence of stage events generated by one call of
`_send_simulated_session_once(cfg)`: always `page_view` then `product_view`;
`add_to_cart` when the first draw is below `p_add_to_cart`; nested inside,
`begin_checkout` below `p_begin_checkout`; nested inside, `purchase` below
`p_purchase` (`u₁ u₂ u₃` are the three `_rng.random()` draws). -/
def sessionStages (cfg : Cfg) (u₁ u₂ u₃ : ℚ) : List Stage :=
  [.page_view, .product_view] ++
  (if u₁ < cfg.p_add_to_cart then
    .add_to_cart ::
    (if u₂ < cfg.p_begin_checkout then
      .begin_checkout :: (if u₃ < cfg.p_purchase then [.purchase] else [])
     else [])
   else [])

/-- The order economics computed in the `begin_checkout` branch of
`_send_simulated_session_once`: `subtotal = qty * price`; shipping is `0`
at or above the free-shipping threshold, else a configured option
(`shipChoice`, the member `rand_choice` picks; `0` when the option list is
empty); `tax = round(tax_rate * subtotal, 2)`;
`total = round(subtotal + shipping + tax, 2)`.  Returns
(reported subtotal, shipping, tax, total) with the reported subtotal rounded
to 2 decimals as in the emitted event. -/
def checkout_economics (qty price threshold taxRate : ℚ)
    (shippingOptions : List ℚ) (shipChoice : ℚ) : ℚ × ℚ × ℚ × ℚ :=
  let subtotal := qty * price
  let shipping := if threshold ≤ subtotal then 0
                  else if shippingOptions.isEmpty then 0 else shipChoice
  let tax := round2 (taxRate * subtotal)
  let total := round2 (subtotal + shipping + tax)
  (round2 subtotal, shipping, tax, total)

/-- The inter-iteration sleep of `_auto_loop` in `app.py`:
`delay = max(0.05, 1.0 / max(0.1, rps)); wait(max(0.0, delay - elapsed))`. -/
def auto_loop_sleep (rps elapsed : ℚ) : ℚ :=
  max 0 (max (1/20) (1 / max (1/10) rps) - elapsed)

/-- Modelled from the spec: the sleep formula the specification states for
the auto-stream scheduler, `max(minimum_tick, 1/rate − elapsed_work_time)`
with `minimum_tick = 0.05`.  Stated for comparison with `auto_loop_sleep`. -/
def spec_sleep_formula (rate elapsed : ℚ) : ℚ :=
  max (1/20) (1 / rate - elapsed)

/-- `clampf(v, lo, hi, default)` from `app.py` with the float-parse outcome
made explicit: `none` models a value `float()` cannot parse (the default is
returned), otherwise clamp via `max(lo, min(hi, x))`. -/
def clampf (v : Option ℚ) (lo hi default : ℚ) : ℚ :=
  match v with
  | none => default
  | some x => max lo (min hi x)

/-- `clampp(v, lo, hi, default)` from `app.py` (integer version). -/
def clampp (v : Option ℤ) (lo hi default : ℤ) : ℤ :=
  match v with
  | none => default
  | some x => max lo (min hi x)

/-- The `kill_event_types` sub-object of a `POST /auto/config` body:
per-type entries, absent entries fall back to the current config
(`to_bool` coercion modelled by its boolean outcome). -/
structure KillBody where
  pageView : Option Bool
  viewContent : Option Bool
  addToCart : Option Bool
  initiateCheckout : Option Bool
  purchase : Option Bool
  returnInitiated : Option Bool

/-- A `POST /auto/config` JSON body.  `none` models an absent key.  For
numeric fields the inner `Option` is the float/int-parse outcome consumed by
`clampf`/`clampp` (`some none` = present but unparseable).  Boolean fields
are modelled by the outcome of the total coercion `to_bool`; string fields
by the outcome of the total `str()`. -/
structure CfgBody where
  enable_pixel : Option Bool
  enable_capi : Option Bool
  enable_webhook : Option Bool
  enable_ga4 : Option Bool
  append_margin : Option Bool
  append_pltv : Option Bool
  null_price : Option Bool
  null_currency : Option Bool
  null_event_id : Option Bool
  desync_event_id : Option Bool
  schema_remove_contents : Option Bool
  schema_empty_arrays : Option Bool
  schema_str_numbers : Option Bool
  schema_unknown_fields : Option Bool
  rps : Option (Option ℚ)
  p_add_to_cart : Option (Option ℚ)
  p_begin_checkout : Option (Option ℚ)
  p_purchase : Option (Option ℚ)
  product_catalog_size : Option (Option ℤ)
  price_min : Option (Option ℚ)
  price_max : Option (Option ℚ)
  currency_override : Option String
  free_shipping_threshold : Option (Option ℚ)
  shipping_options : Option (List (Option ℚ))
  tax_rate : Option (Option ℚ)
  cost_pct_min : Option (Option ℚ)
  cost_pct_max : Option (Option ℚ)
  pltv_min : Option (Option ℚ)
  pltv_max : Option (Option ℚ)
  mismatch_value_pct : Option (Option ℚ)
  lag_capi_seconds : Option (Option ℚ)
  net_capi_error_rate : Option (Option ℚ)
  duplicate_event_id_n : Option (Option ℤ)
  drop_pixel_every_n : Option (Option ℤ)
  net_capi_latency_ms : Option (Option ℤ)
  clock_skew_seconds : Option (Option ℤ)
  mismatch_currency : Option String
  kill_event_types : Option KillBody

/-- `_ALLOWED_CURRENCIES` from `app.py`. -/
def allowed_currencies : List String :=
  ["AUTO", "NULL", "USD", "EUR", "GBP", "AUD", "CAD", "JPY"]

/-- The shipping-options cleaner of `auto_config`: keep the parseable
non-negative entries rounded to 2 decimals; replace the config value only
when the cleaned list is non-empty. -/
def clean_shipping_options (arr : List (Option ℚ)) (old : List ℚ) : List ℚ :=
  let cleaned := arr.filterMap fun v =>
    match v with
    | some fv => if 0 ≤ fv then some (round2 fv) else none
    | none => none
  if cleaned.isEmpty then old else cleaned

/-- The `POST` branch of the `/auto/config` endpoint (`auto_config` in
`app.py`): every accepted field is validated and clamped; parse failures and
out-of-domain strings keep the old value.  Assignments are sequential, so
`price_max`, `cost_pct_max` and `pltv_max` are clamped against the already
updated `price_min`, `cost_pct_min` and `pltv_min`. -/
def update_config (c : Cfg) (b : CfgBody) : Cfg :=
  let pmin := match b.price_min with
              | some v => clampf v 0 1000000 c.price_min
              | none => c.price_min
  let pmax := match b.price_max with
              | some v => clampf v (max (1/100) pmin) 1000000 c.price_max
              | none => c.price_max
  let cmin := match b.cost_pct_min with
              | some v => clampf v 0 1 c.cost_pct_min
              | none => c.cost_pct_min
  let cmax := match b.cost_pct_max with
              | some v => max (clampf v cmin 1 c.cost_pct_max) cmin
              | none => c.cost_pct_max
  let lmin := match b.pltv_min with
              | some v => clampf v 0 10000000 c.pltv_min
              | none => c.pltv_min
  let lmax := match b.pltv_max with
              | some v => max (clampf v lmin 10000000 c.pltv_max) lmin
              | none => c.pltv_max
  { c with
    enable_pixel := b.enable_pixel.getD c.enable_pixel
    enable_capi := b.enable_capi.getD c.enable_capi
    enable_webhook := b.enable_webhook.getD c.enable_webhook
    enable_ga4 := b.enable_ga4.getD c.enable_ga4
    append_margin := b.append_margin.getD c.append_margin
    append_pltv := b.append_pltv.getD c.append_pltv
    null_price := b.null_price.getD c.null_price
    null_currency := b.null_currency.getD c.null_currency
    null_event_id := b.null_event_id.getD c.null_event_id
    desync_event_id := b.desync_event_id.getD c.desync_event_id
    schema_remove_contents := b.schema_remove_contents.getD c.schema_remove_contents
    schema_empty_arrays := b.schema_empty_arrays.getD c.schema_empty_arrays
    schema_str_numbers := b.schema_str_numbers.getD c.schema_str_numbers
    schema_unknown_fields := b.schema_unknown_fields.getD c.schema_unknown_fields
    rps := match b.rps with
           | some v => clampf v (1/10) 10 c.rps
           | none => c.rps
    p_add_to_cart := match b.p_add_to_cart with
                     | some v => clampf v 0 1 c.p_add_to_cart
                     | none => c.p_add_to_cart
    p_begin_checkout := match b.p_begin_checkout with
                        | some v => clampf v 0 1 c.p_begin_checkout
                        | none => c.p_begin_checkout
    p_purchase := match b.p_purchase with
                  | some v => clampf v 0 1 c.p_purchase
                  | none => c.p_purchase
    product_catalog_size := match b.product_catalog_size with
                            | some v => clampp v 1 100000 c.product_catalog_size
                            | none => c.product_catalog_size
    price_min := pmin
    price_max := pmax
    currency_override := match b.currency_override with
                         | some s =>
                           if s.toUpper ∈ allowed_currencies then s.toUpper
                           else c.currency_override
                         | none => c.currency_override
    free_shipping_threshold := match b.free_shipping_threshold with
                               | some v => clampf v 0 1000000 c.free_shipping_threshold
                               | none => c.free_shipping_threshold
    shipping_options := match b.shipping_options with
                        | some arr => clean_shipping_options arr c.shipping_options
                        | none => c.shipping_options
    tax_rate := match b.tax_rate with
                | some v => clampf v 0 1 c.tax_rate
                | none => c.tax_rate
    cost_pct_min := cmin
    cost_pct_max := cmax
    pltv_min := lmin
    pltv_max := lmax
    mismatch_value_pct := match b.mismatch_value_pct with
                          | some v => clampf v 0 10 c.mismatch_value_pct
                          | none => c.mismatch_value_pct
    lag_capi_seconds := match b.lag_capi_seconds with
                        | some v => clampf v 0 10 c.lag_capi_seconds
                        | none => c.lag_capi_seconds
    net_capi_error_rate := match b.net_capi_error_rate with
                           | some v => clampf v 0 10 c.net_capi_error_rate
                           | none => c.net_capi_error_rate
    duplicate_event_id_n := match b.duplicate_event_id_n with
                            | some v => clampp v 0 (10 ^ 9) c.duplicate_event_id_n
                            | none => c.duplicate_event_id_n
    drop_pixel_every_n := match b.drop_pixel_every_n with
                          | some v => clampp v 0 (10 ^ 9) c.drop_pixel_every_n
                          | none => c.drop_pixel_every_n
    net_capi_latency_ms := match b.net_capi_latency_ms with
                           | some v => clampp v 0 (10 ^ 9) c.net_capi_latency_ms
                           | none => c.net_capi_latency_ms
    clock_skew_seconds := match b.clock_skew_seconds with
                          | some v => clampp v 0 (10 ^ 9) c.clock_skew_seconds
                          | none => c.clock_skew_seconds
    mismatch_currency := match b.mismatch_currency with
                         | some s =>
                           if s.toUpper ∈ ["NONE", "PIXEL", "CAPI"] then s.toUpper
                           else c.mismatch_currency
                         | none => c.mismatch_currency
    kill_event_types := match b.kill_event_types with
                        | some d =>
                          { pageView := d.pageView.getD c.kill_event_types.pageView
                            viewContent := d.viewContent.getD c.kill_event_types.viewContent
                            addToCart := d.addToCart.getD c.kill_event_types.addToCart
                            initiateCheckout := d.initiateCheckout.getD c.kill_event_types.initiateCheckout
                            purchase := d.purchase.getD c.kill_event_types.purchase
                            returnInitiated := d.returnInitiated.getD c.kill_event_types.returnInitiated }
                        | none => c.kill_event_types }

/-- The `/config/seed` endpoint (`set_seed` in `app.py`): only the `seed`
field changes. -/
def set_seed (c : Cfg) (seed : String) : Cfg :=
  { c with seed := seed }

/-- The `/presets/import` endpoint (`presets_import` in `app.py`) on a body
carrying a full config-shaped dict: `CONFIG.clear(); CONFIG.update(data)` —
the imported data replaces the configuration wholesale, with no validation
or clamping of any field. -/
def presets_import_config (data : Cfg) : Cfg :=
  data

/-- The `/presets/reset` endpoint (`presets_reset` in `app.py`): the boot
defaults replace the configuration. -/
def presets_reset_config : Cfg :=
  defaultConfig

/-- The documented valid ranges C9 asserts for the configuration: funnel
probabilities in `[0,1]`, the duplicate/drop/latency/clock-skew counters
non-negative, and `currency_override` in the allow-list. -/
def CfgValid (c : Cfg) : Prop :=
  0 ≤ c.p_add_to_cart ∧ c.p_add_to_cart ≤ 1 ∧
  0 ≤ c.p_begin_checkout ∧ c.p_begin_checkout ≤ 1 ∧
  0 ≤ c.p_purchase ∧ c.p_purchase ≤ 1 ∧
  0 ≤ c.duplicate_event_id_n ∧ 0 ≤ c.drop_pixel_every_n ∧
  0 ≤ c.net_capi_latency_ms ∧ 0 ≤ c.clock_skew_seconds ∧
  c.currency_override ∈ allowed_currencies

instance (c : Cfg) : Decidable (CfgValid c) := by
  unfold CfgValid
  infer_instance

/-- Pre-rounding gross value of the parseable cart lines, the bound the
margin claim compares against: the sum of `price * quantity` over the lines
the margin loop does not skip. -/
def valid_gross : List (List (String × Val)) → ℚ
  | [] => 0
  | c :: t =>
    match floatOfVal ((lookupA "item_price" c).getD .null),
          floatOfVal ((lookupA "quantity" c).getD (.num 1)) with
    | some price, some qty => price * qty + valid_gross t
    | _, _ => valid_gross t

/-- The `custom_data.currency` value of a mapped wire event, when present. -/
def wire_currency (ev : Val) : Option Val :=
  match ev with
  | .obj fs =>
    match lookupA "custom_data" fs with
    | some (.obj cd) => lookupA "currency" cd
    | _ => none
  | _ => none

/-- A simulated event on which every conversion `map_sim_event_to_capi`
performs succeeds: the timestamp is present and parseable, and the fields
the dispatched stage reads are present with parseable numbers. -/
def WellFormedEvent (e : SimEvent) : Prop :=
  (∃ t, e.timestamp = some (some t)) ∧
  (e.event_type = some "product_view" →
    ∃ p, e.product = some p ∧ (floatOfVal p.price).isSome) ∧
  (e.event_type = some "add_to_cart" →
    ∃ li, e.line_item = some li ∧ (intOfVal li.qty).isSome ∧
      (floatOfVal li.qty).isSome ∧ (floatOfVal li.price).isSome) ∧
  (e.event_type = some "begin_checkout" →
    (∃ ls, e.cart = some ls ∧ ∀ li ∈ ls, (intOfVal li.qty).isSome ∧
      (floatOfVal li.price).isSome) ∧ (floatOfVal ((e.total).getD (.num 0))).isSome) ∧
  (e.event_type = some "purchase" →
    (∃ ls, e.items = some ls ∧ ∀ li ∈ ls, (intOfVal li.qty).isSome ∧
      (floatOfVal li.price).isSome) ∧ (floatOfVal ((e.total).getD (.num 0))).isSome)

/-- The count relations `_log_event` maintains in `DEDUP`. -/
def DedupCountsInv (s : DedupState) : Prop :=
  s.matched = (s.pixel_ids ∩ s.capi_ids).card ∧
  s.pixel_only = (s.pixel_ids \ s.capi_ids).card ∧
  s.capi_only = (s.capi_ids \ s.pixel_ids).card

instance (s : DedupState) : Decidable (DedupCountsInv s) := by
  unfold DedupCountsInv
  infer_instance

/-- The all-zeros draw stream, used to instantiate theorems at concrete
inputs. -/
def usZero : ℕ → ℚ := fun _ => 0

/-- A malformed input event: a `page_view` whose dict has no `timestamp`
key (as any caller of `/ingest` can submit). -/
def eventNoTimestamp : SimEvent :=
  ⟨some "page_view", some "evt_a", none, some "u_1", some (some "USD"),
   none, none, none, none, none, none, none, none⟩

/-- A well-formed `page_view` event. -/
def eventPageView : SimEvent :=
  ⟨some "page_view", some "evt_b", some (some 1700000000), some "u_1",
   some (some "USD"), none, none, none, none, none, none, none, none⟩

/-- A well-formed `return_initiated` event used to instantiate the
null-currency claim. -/
def eventReturn : SimEvent :=
  ⟨some "return_initiated", some "evt_c", some (some 1700000000), some "u_1",
   some (some "USD"), none, none, none, none, none, none, none, none⟩

/-- Config with the server-channel null-currency flag on and a fixed `EUR`
currency override (margin/PLTV appending off to keep the expected wire
event closed-form). -/
def cfgNullCurEUR : Cfg :=
  { defaultConfig with null_currency := true, currency_override := "EUR",
                       append_margin := false, append_pltv := false }

/-- The wire event `map_sim_event_to_capi` produces for `eventReturn` under
`cfgNullCurEUR`. -/
def wireReturnEUR : Val :=
  .obj [("event_time", .num 1700000000), ("event_id", .str "evt_c"),
        ("action_source", .str "website"),
        ("event_source_url", .str "http://127.0.0.1:5000/"),
        ("user_data", .obj
          [("external_id", .str "sha256:u_1"),
           ("client_ip_address", .str "127.0.0.1"),
           ("client_user_agent", .str "AutoRunner/1.0")]),
        ("event_name", .str "ReturnInitiated"),
        ("custom_data", .obj
          [("content_type", .str "product"), ("content_ids", .arr []),
           ("value", .num 0), ("currency", .null)])]

/-- Config whose cost-percentage range is pinned to `[0, 0]` (a zero cost
fraction, so the drawn cost is deterministically `0`). -/
def cfgZeroCost : Cfg :=
  { defaultConfig with cost_pct_min := 0, cost_pct_max := 0 }

/-- A single cart line with non-negative price `0.006` and quantity `1`. -/
def marginCexContents : List (List (String × Val)) :=
  [[("item_price", .num (6/1000)), ("quantity", .num 1)]]

/-- Config with a reversed (max < min) negative cost-percentage range. -/
def cfgNegCostRange : Cfg :=
  { defaultConfig with cost_pct_min := -1, cost_pct_max := -2 }

/-- Config with reversed PLTV and cost ranges (max < min, both minima
within their usual domains). -/
def cfgRangeSwap : Cfg :=
  { defaultConfig with pltv_min := 10, pltv_max := 3,
                       cost_pct_min := 1/2, cost_pct_max := 1/4 }

/-- A config-shaped preset body whose `p_add_to_cart` is out of range. -/
def badPreset : Cfg :=
  { defaultConfig with p_add_to_cart := 5 }

/-- A `POST /auto/config` body touching every range-relevant field, partly
with unparseable (`some none`) and out-of-range values. -/
def bodySample : CfgBody where
  enable_pixel := some false
  enable_capi := none
  enable_webhook := none
  enable_ga4 := none
  append_margin := none
  append_pltv := none
  null_price := none
  null_currency := some true
  null_event_id := none
  desync_event_id := none
  schema_remove_contents := none
  schema_empty_arrays := none
  schema_str_numbers := none
  schema_unknown_fields := none
  rps := some (some 50)
  p_add_to_cart := some (some 7)
  p_begin_checkout := some (some (-3))
  p_purchase := some none
  product_catalog_size := some (some 0)
  price_min := some (some 5)
  price_max := some (some 2)
  currency_override := some "xyz"
  free_shipping_threshold := some (some (-10))
  shipping_options := some [some 3, none, some (-2)]
  tax_rate := some (some 2)
  cost_pct_min := some (some (3/4))
  cost_pct_max := some (some (1/4))
  pltv_min := some (some 500)
  pltv_max := some (some 100)
  mismatch_value_pct := some (some 99)
  lag_capi_seconds := some none
  net_capi_error_rate := some (some (1/2))
  duplicate_event_id_n := some (some (-7))
  drop_pixel_every_n := some (some 3)
  net_capi_latency_ms := some (some (10 ^ 12))
  clock_skew_seconds := some (some (-30))
  mismatch_currency := some "pixel"
  kill_event_types := none

/-- A concrete pixel-channel log entry with an event id. -/
def entryPixelOk : LogEntry :=
  { channel := "pixel", event_name := "ViewContent", ok := true,
    event_id := some "evt_1" }

/-- A concrete entry with no event id (Python `None`). -/
def entryNoId : LogEntry :=
  { channel := "capi", event_name := "Purchase", ok := true, event_id := none }

theorem rat_floor_eq_floor (x : ℚ) : x.floor = ⌊x⌋ := by
  rw [Rat.floor_def', ← Rat.floor_def]

theorem roundHalfEven_le (x : ℚ) : (roundHalfEven x : ℚ) ≤ x + 1/2 := by
  have hf : (x.floor : ℚ) ≤ x := by
    rw [rat_floor_eq_floor]; exact Int.floor_le x
  unfold roundHalfEven
  split
  · linarith
  · split
    · push_cast
      linarith
    · split
      · linarith
      · push_cast
        linarith

theorem roundHalfEven_nonneg (x : ℚ) (hx : 0 ≤ x) : 0 ≤ roundHalfEven x := by
  have hf : (0 : ℤ) ≤ x.floor := by
    rw [rat_floor_eq_floor]; exact Int.floor_nonneg.mpr hx
  unfold roundHalfEven
  split
  · exact hf
  · split
    · omega
    · split
      · exact hf
      · omega

theorem round2_le (x : ℚ) : round2 x ≤ x + 1/200 := by
  have h := roundHalfEven_le (100 * x)
  unfold round2
  rw [div_le_iff₀ (by norm_num : (0:ℚ) < 100)]
  linarith

theorem round2_nonneg (x : ℚ) (hx : 0 ≤ x) : 0 ≤ round2 x := by
  have h := roundHalfEven_nonneg (100 * x) (by linarith)
  unfold round2
  positivity

theorem floor_eval (x : ℚ) (f : ℤ) (h1 : (f : ℚ) ≤ x) (h2 : x < f + 1) :
    x.floor = f := by
  rw [rat_floor_eq_floor]
  exact Int.floor_eq_iff.mpr ⟨h1, h2⟩

theorem round2_eq_low (x : ℚ) (f : ℤ) (h1 : (f : ℚ) ≤ 100 * x)
    (h2 : 100 * x - f < 1/2) : round2 x = (f : ℚ) / 100 := by
  unfold round2 roundHalfEven
  rw [floor_eval (100 * x) f h1 (by linarith)]
  rw [if_pos (by linarith)]

theorem round2_eq_high (x : ℚ) (f : ℤ) (h1 : (f : ℚ) ≤ 100 * x)
    (h2 : 1/2 < 100 * x - f) (h3 : 100 * x < f + 1) :
    round2 x = ((f : ℚ) + 1) / 100 := by
  unfold round2 roundHalfEven
  rw [floor_eval (100 * x) f h1 h3]
  rw [if_neg (by linarith), if_pos (by linarith)]
  push_cast
  ring

/-- C1: for every configuration and all outcomes of the three RNG draws, the
stage sequence emitted by one call of the session simulator
(`_send_simulated_session_once`) is a prefix of
[page_view, product_view, add_to_cart, begin_checkout, purchase]; in
particular later stages occur only after all earlier ones in the same run. -/
theorem c1_funnel_prefix (cfg : Cfg) (u₁ u₂ u₃ : ℚ) :
    List.IsPrefix (sessionStages cfg u₁ u₂ u₃) fullFunnel := by
  unfold sessionStages fullFunnel
  by_cases h1 : u₁ < cfg.p_add_to_cart
  · by_cases h2 : u₂ < cfg.p_begin_checkout
    · by_cases h3 : u₃ < cfg.p_purchase
      · simp only [h1, h2, h3, if_pos]
        exact ⟨[], rfl⟩
      · simp only [h1, h2, if_pos, h3, if_neg]
        exact ⟨[.purchase], rfl⟩
    · simp only [h1, if_pos, h2, if_neg]
      exact ⟨[.begin_checkout, .purchase], rfl⟩
  · simp only [h1, if_neg]
    exact ⟨[.add_to_cart, .begin_checkout, .purchase], rfl⟩

/-- C6: with a single cart line of unit price 68.99 and quantity 2, a
free-shipping threshold of 75 and a tax rate of 0.08, the begin-checkout
economics are subtotal 137.98, shipping 0, tax 11.04 and total 149.02,
whatever the configured shipping options and the random shipping choice. -/
theorem c6_checkout_economics (opts : List ℚ) (choice : ℚ) :
    checkout_economics 2 (6899/100) 75 (8/100) opts choice =
      (13798/100, 0, 1104/100, 14902/100) := by
  have hsub : round2 (2 * (6899/100 : ℚ)) = 13798/100 := by
    have h := round2_eq_low (2 * (6899/100 : ℚ)) 13798 (by norm_num) (by norm_num)
    rw [h]; norm_num
  have htax : round2 ((8:ℚ)/100 * (2 * (6899/100))) = 1104/100 := by
    have h := round2_eq_high ((8:ℚ)/100 * (2 * (6899/100))) 1103
      (by norm_num) (by norm_num) (by norm_num)
    rw [h]; norm_num
  have htot : round2 (2 * (6899/100 : ℚ) + 0 + 1104/100) = 14902/100 := by
    have h := round2_eq_low (2 * (6899/100 : ℚ) + 0 + 1104/100) 14902
      (by norm_num) (by norm_num)
    rw [h]; norm_num
  simp only [checkout_economics]
  rw [if_pos (by norm_num : (75:ℚ) ≤ 2 * (6899/100))]
  rw [hsub, htax, htot]

/-- C8 (corrected): when a configured range has max < min the draw does not
raise and collapses to a single point — for the PLTV range that point is the
configured minimum for every config, while for the cost-percentage range it
is the configured minimum only when that minimum is non-negative (the code
clamps the lower end with `max(0.0, cost_pct_min)` first). -/
theorem c8_range_collapse (cfg : Cfg) (u : ℚ) :
    (cfg.pltv_max < cfg.pltv_min → pltv_draw cfg u = cfg.pltv_min) ∧
    (0 ≤ cfg.cost_pct_min → cfg.cost_pct_max < cfg.cost_pct_min →
      cost_pct_draw cfg u = cfg.cost_pct_min) := by
  constructor
  · intro h
    simp only [pltv_draw, rand_uniform]
    rw [if_pos h]
    simp
  · intro h0 h
    simp only [cost_pct_draw, rand_uniform]
    rw [max_eq_right h0, max_eq_left (le_of_lt h)]
    simp

/-- C8 witness: at a config with pltv range [10, 3] and cost range
[0.5, 0.25] (both reversed), the draws equal the configured minima. -/
theorem c8_range_collapse_witness :
    pltv_draw cfgRangeSwap (1/3) = cfgRangeSwap.pltv_min ∧
    cost_pct_draw cfgRangeSwap (1/3) = cfgRangeSwap.cost_pct_min :=
  ⟨(c8_range_collapse cfgRangeSwap (1/3)).1 (by norm_num [cfgRangeSwap]),
   (c8_range_collapse cfgRangeSwap (1/3)).2 (by norm_num [cfgRangeSwap])
     (by norm_num [cfgRangeSwap])⟩

/-- C8 counterexample: with the reversed negative cost range
[min, max] = [-1, -2], the drawn cost fraction is 0, not the configured
minimum −1, refuting the claim that the draw always equals the minimum. -/
theorem c8_negative_min_cex :
    cfgNegCostRange.cost_pct_max < cfgNegCostRange.cost_pct_min ∧
    cost_pct_draw cfgNegCostRange 0 ≠ cfgNegCostRange.cost_pct_min := by
  constructor
  · norm_num [cfgNegCostRange]
  · norm_num [cost_pct_draw, rand_uniform, cfgNegCostRange]

/-- C10 (corrected): the auto-stream loop sleeps
`max(0, max(0.05, 1/max(0.1, rps)) − elapsed)`; equivalently each iteration
lasts exactly `max(elapsed, max(0.05, 1/max(0.1, rps)))` — the 0.05 s
minimum bounds the target period, not the sleep itself, and the sleep is 0
whenever the work time already exceeds the period. -/
theorem c10_iteration_time (rps elapsed : ℚ) :
    elapsed + auto_loop_sleep rps elapsed =
      max elapsed (max (1/20) (1 / max (1/10) rps)) := by
  unfold auto_loop_sleep
  rcases le_total elapsed (max (1/20) (1 / max (1/10) rps)) with h | h
  · rw [max_eq_right (by linarith : (0:ℚ) ≤ max (1/20) (1 / max (1/10) rps) - elapsed)]
    rw [max_eq_right h]
    ring
  · rw [max_eq_left (by linarith : max (1/20) (1 / max (1/10) rps) - elapsed ≤ 0)]
    rw [max_eq_left h]
    ring

/-- C10 counterexample: at rate 1 with 1 s of work the loop does not sleep
at all (0 s), while the spec formula max(0.05, 1/rate − elapsed) would
sleep 0.05 s. -/
theorem c10_sleep_formula_cex :
    auto_loop_sleep 1 1 = 0 ∧ spec_sleep_formula 1 1 = 1/20 ∧
    auto_loop_sleep 1 1 ≠ spec_sleep_formula 1 1 := by
  refine ⟨?_, ?_, ?_⟩ <;>
    norm_num [auto_loop_sleep, spec_sleep_formula]

theorem dedup_recompute_inv (px cp : Finset String) :
    DedupCountsInv ⟨px, cp, (px ∩ cp).card, (px \ (px ∩ cp)).card,
      (cp \ (px ∩ cp)).card⟩ := by
  refine ⟨rfl, ?_, ?_⟩
  · simp only
    rw [Finset.sdiff_inter_self_left]
  · simp only
    rw [Finset.inter_comm, Finset.sdiff_inter_self_left]

theorem dedup_counts_inv_consequences (s : DedupState) (h : DedupCountsInv s) :
    s.matched ≤ min s.pixel_ids.card s.capi_ids.card ∧
    s.pixel_only + s.matched = s.pixel_ids.card := by
  obtain ⟨hm, hp, _⟩ := h
  refine ⟨le_min ?_ ?_, ?_⟩
  · rw [hm]
    exact Finset.card_le_card Finset.inter_subset_left
  · rw [hm]
    exact Finset.card_le_card Finset.inter_subset_right
  · rw [hm, hp, ← Finset.sdiff_inter_self_left s.pixel_ids s.capi_ids]
    exact Finset.card_sdiff_add_card_eq_card Finset.inter_subset_left

/-- C2: `_log_event` keeps the derived dedup counts consistent with the id
sets — after any log operation (in particular after every insertion of an
event id) matched = |pixel ∩ capi|, pixel_only = |pixel − capi| and
capi_only = |capi − pixel|, and consequently
matched ≤ min(|pixel|, |capi|) and pixel_only + matched = |pixel|. -/
theorem c2_dedup_counts (s : DedupState) (e : LogEntry)
    (h : DedupCountsInv s) :
    DedupCountsInv (log_event_dedup s e) ∧
    (log_event_dedup s e).matched ≤
      min (log_event_dedup s e).pixel_ids.card (log_event_dedup s e).capi_ids.card ∧
    (log_event_dedup s e).pixel_only + (log_event_dedup s e).matched =
      (log_event_dedup s e).pixel_ids.card := by
  have hinv : DedupCountsInv (log_event_dedup s e) := by
    by_cases heid : e.event_id.getD "" = ""
    · simp only [log_event_dedup]
      rw [if_pos heid]
      exact h
    · simp only [log_event_dedup]
      rw [if_neg heid]
      exact dedup_recompute_inv _ _
  exact ⟨hinv, dedup_counts_inv_consequences _ hinv⟩

/-- C2 witness: inserting the id of a concrete pixel entry into the boot
dedup state keeps the counts consistent. -/
theorem c2_dedup_counts_witness :
    DedupCountsInv (log_event_dedup dedupInit entryPixelOk) ∧
    (log_event_dedup dedupInit entryPixelOk).matched ≤
      min (log_event_dedup dedupInit entryPixelOk).pixel_ids.card
        (log_event_dedup dedupInit entryPixelOk).capi_ids.card ∧
    (log_event_dedup dedupInit entryPixelOk).pixel_only +
        (log_event_dedup dedupInit entryPixelOk).matched =
      (log_event_dedup dedupInit entryPixelOk).pixel_ids.card :=
  c2_dedup_counts dedupInit entryPixelOk (by decide)

/-- C3 (corrected): a dispatch whose event id is absent or empty leaves the
dedup state (both id sets and all counts) unchanged; but — contrary to the
claim — a dropped browser dispatch is not exempt: `/metrics/pixel` logs it
with its id, and `_log_event` inserts a present id regardless of the
dropped flag. -/
theorem c3_no_id_no_insert (s : DedupState) (e : LogEntry)
    (h : e.event_id.getD "" = "") :
    log_event_dedup s e = s := by
  unfold log_event_dedup
  rw [if_pos h]

/-- C3 witness: an entry with a `None` id leaves a one-element dedup state
unchanged. -/
theorem c3_no_id_no_insert_witness :
    log_event_dedup (log_event_dedup dedupInit entryPixelOk) entryNoId =
      log_event_dedup dedupInit entryPixelOk :=
  c3_no_id_no_insert (log_event_dedup dedupInit entryPixelOk) entryNoId (by decide)

/-- C3 counterexample: a browser dispatch recorded as dropped (logged with
ok = false) still gets its event id inserted into the pixel dedup set, so
the dedup sets are not left unchanged by dropped dispatches. -/
theorem c3_dropped_inserted_cex :
    (metrics_pixel_entry "AddToCart" (some "evt_1") true).ok = false ∧
    (log_event_dedup dedupInit
        (metrics_pixel_entry "AddToCart" (some "evt_1") true)).pixel_ids ≠
      dedupInit.pixel_ids := by
  constructor
  · rfl
  · decide

theorem round2_zero : round2 0 = 0 := by
  have h := round2_eq_low 0 0 (by norm_num) (by norm_num)
  simpa using h

theorem marginLoop_nonneg (cfg : Cfg) (cs : List (List (String × Val)))
    (us : ℕ → ℚ) : 0 ≤ (marginLoop cfg cs us).1 := by
  induction cs generalizing us with
  | nil => simp [marginLoop]
  | cons c t ih =>
    simp only [marginLoop]
    cases hpe : floatOfVal ((lookupA "item_price" c).getD .null) with
    | none => simpa only [hpe] using ih us
    | some p =>
      cases hqe : floatOfVal ((lookupA "quantity" c).getD (.num 1)) with
      | none => simpa only [hpe, hqe] using ih us
      | some q =>
        simp only [hpe, hqe]
        exact add_nonneg (mul_nonneg (le_max_left 0 _) (le_max_left 0 _))
          (ih fun n => us (n + 1))

theorem marginLoop_le_valid_gross (cfg : Cfg) (cs : List (List (String × Val)))
    (us : ℕ → ℚ)
    (hp : ∀ c ∈ cs, ∀ p, floatOfVal ((lookupA "item_price" c).getD .null) = some p → 0 ≤ p)
    (hq : ∀ c ∈ cs, ∀ q, floatOfVal ((lookupA "quantity" c).getD (.num 1)) = some q → 0 ≤ q) :
    (marginLoop cfg cs us).1 ≤ valid_gross cs := by
  induction cs generalizing us with
  | nil => simp [marginLoop, valid_gross]
  | cons c t ih =>
    have hpt : ∀ c₁ ∈ t, ∀ p, floatOfVal ((lookupA "item_price" c₁).getD .null) = some p → 0 ≤ p :=
      fun c₁ hc₁ => hp c₁ (List.mem_cons_of_mem _ hc₁)
    have hqt : ∀ c₁ ∈ t, ∀ q, floatOfVal ((lookupA "quantity" c₁).getD (.num 1)) = some q → 0 ≤ q :=
      fun c₁ hc₁ => hq c₁ (List.mem_cons_of_mem _ hc₁)
    simp only [marginLoop, valid_gross]
    cases hpe : floatOfVal ((lookupA "item_price" c).getD .null) with
    | none => simpa only [hpe] using ih us hpt hqt
    | some p =>
      cases hqe : floatOfVal ((lookupA "quantity" c).getD (.num 1)) with
      | none => simpa only [hpe, hqe] using ih us hpt hqt
      | some q =>
        simp only [hpe, hqe]
        have hp0 : 0 ≤ p := hp c (List.mem_cons_self c t) p hpe
        have hq0 : 0 ≤ q := hq c (List.mem_cons_self c t) q hqe
        have hc0 : (0:ℚ) ≤ max 0 (round2 (p * cost_pct_draw cfg (us 0))) :=
          le_max_left 0 _
        have h1 : max 0 (p - max 0 (round2 (p * cost_pct_draw cfg (us 0)))) ≤ p :=
          max_le hp0 (by linarith)
        have h2 : max 0 q = q := max_eq_right hq0
        have hline : max 0 (p - max 0 (round2 (p * cost_pct_draw cfg (us 0)))) * max 0 q
            ≤ p * q := by
          rw [h2]
          exact mul_le_mul_of_nonneg_right h1 hq0
        exact add_le_add hline (ih (fun n => us (n + 1)) hpt hqt)

/-- C7 (corrected): for cart lines with non-negative prices and quantities
the computed total margin is never negative, and exceeds the gross value of
the parseable lines by at most the final 2-decimal rounding step (1/200);
the rounding can push it above the gross value itself. -/
theorem c7_margin_bounds (contents : List (List (String × Val))) (cfg : Cfg)
    (us : ℕ → ℚ)
    (hp : ∀ c ∈ contents, ∀ p, floatOfVal ((lookupA "item_price" c).getD .null) = some p → 0 ≤ p)
    (hq : ∀ c ∈ contents, ∀ q, floatOfVal ((lookupA "quantity" c).getD (.num 1)) = some q → 0 ≤ q) :
    0 ≤ margin_from_contents contents cfg us ∧
    margin_from_contents contents cfg us ≤ valid_gross contents + 1/200 := by
  constructor
  · exact round2_nonneg _ (marginLoop_nonneg cfg contents us)
  · have h1 := round2_le (marginLoop cfg contents us).1
    have h2 := marginLoop_le_valid_gross cfg contents us hp hq
    unfold margin_from_contents
    linarith

/-- C7 witness: the bounds hold for the concrete single-line cart under the
zero-cost config. -/
theorem c7_margin_bounds_witness :
    0 ≤ margin_from_contents marginCexContents cfgZeroCost usZero ∧
    margin_from_contents marginCexContents cfgZeroCost usZero ≤
      valid_gross marginCexContents + 1/200 :=
  c7_margin_bounds marginCexContents cfgZeroCost usZero
    (by
      intro c hc p hpe
      simp only [marginCexContents, List.mem_singleton] at hc
      subst hc
      simp [lookupA, floatOfVal] at hpe
      subst hpe
      norm_num)
    (by
      intro c hc q hqe
      simp only [marginCexContents, List.mem_singleton] at hc
      subst hc
      simp [lookupA, floatOfVal] at hqe
      subst hqe
      norm_num)

/-- C7 counterexample: a line with price 0.006 and quantity 1 under a
zero-cost-fraction config yields margin 0.01, strictly above the gross
value 0.006, refuting margin ≤ Σ price × quantity. -/
theorem c7_margin_rounding_cex :
    margin_from_contents marginCexContents cfgZeroCost usZero = 1/100 ∧
    valid_gross marginCexContents = 6/1000 ∧
    valid_gross marginCexContents <
      margin_from_contents marginCexContents cfgZeroCost usZero := by
  have hdraw : cost_pct_draw cfgZeroCost 0 = 0 := by
    simp only [cost_pct_draw, rand_uniform]
    norm_num [show cfgZeroCost.cost_pct_min = (0:ℚ) from rfl,
      show cfgZeroCost.cost_pct_max = (0:ℚ) from rfl]
  have hkeys : lookupA "item_price" [("item_price", Val.num (6/1000)), ("quantity", Val.num 1)] =
      some (Val.num (6/1000)) ∧
      lookupA "quantity" [("item_price", Val.num (6/1000)), ("quantity", Val.num 1)] =
      some (Val.num 1) := by
    constructor <;> simp [lookupA]
  have hloop : (marginLoop cfgZeroCost marginCexContents usZero).1 = 6/1000 := by
    simp only [marginCexContents, marginLoop, hkeys.1, hkeys.2, Option.getD_some, floatOfVal, usZero]
    rw [hdraw]
    norm_num [round2_zero]
  have hmargin : margin_from_contents marginCexContents cfgZeroCost usZero = 1/100 := by
    unfold margin_from_contents
    rw [hloop]
    have h := round2_eq_high (6/1000 : ℚ) 0 (by norm_num) (by norm_num) (by norm_num)
    rw [h]; norm_num
  have hgross : valid_gross marginCexContents = 6/1000 := by
    simp only [marginCexContents, valid_gross, hkeys.1, hkeys.2, Option.getD_some, floatOfVal]
    norm_num
  exact ⟨hmargin, hgross, by rw [hmargin, hgross]; norm_num⟩

theorem clampf_mem (v : Option ℚ) (lo hi d : ℚ) (hlo : lo ≤ d) (hhi : d ≤ hi)
    (h : lo ≤ hi) : lo ≤ clampf v lo hi d ∧ clampf v lo hi d ≤ hi := by
  cases v with
  | none => exact ⟨hlo, hhi⟩
  | some x => exact ⟨le_max_left _ _, max_le h (min_le_left _ _)⟩

theorem clampp_nonneg (v : Option ℤ) (hi d : ℤ) (hd : 0 ≤ d) :
    0 ≤ clampp v 0 hi d := by
  cases v with
  | none => exact hd
  | some x => exact le_max_left _ _

/-- C9 (corrected): the validated mutation paths keep every documented range
— the `/auto/config` update clamps funnel probabilities to [0,1], counters
to non-negative integers and currency codes to the allow-list, and seed
setting and preset reset also preserve validity; preset import, however, is
not validated (see the counterexample). -/
theorem c9_validated_mutations (c : Cfg) (b : CfgBody) (s : String)
    (h : CfgValid c) :
    CfgValid (update_config c b) ∧ CfgValid (set_seed c s) ∧
    CfgValid presets_reset_config := by
  obtain ⟨h1, h2, h3, h4, h5, h6, h7, h8, h9, h10, h11⟩ := h
  refine ⟨⟨?_, ?_, ?_, ?_, ?_, ?_, ?_, ?_, ?_, ?_, ?_⟩,
    ⟨h1, h2, h3, h4, h5, h6, h7, h8, h9, h10, h11⟩, ?_⟩
  · simp only [update_config]
    cases b.p_add_to_cart with
    | none => exact h1
    | some v => exact (clampf_mem v 0 1 c.p_add_to_cart h1 h2 (by norm_num)).1
  · simp only [update_config]
    cases b.p_add_to_cart with
    | none => exact h2
    | some v => exact (clampf_mem v 0 1 c.p_add_to_cart h1 h2 (by norm_num)).2
  · simp only [update_config]
    cases b.p_begin_checkout with
    | none => exact h3
    | some v => exact (clampf_mem v 0 1 c.p_begin_checkout h3 h4 (by norm_num)).1
  · simp only [update_config]
    cases b.p_begin_checkout with
    | none => exact h4
    | some v => exact (clampf_mem v 0 1 c.p_begin_checkout h3 h4 (by norm_num)).2
  · simp only [update_config]
    cases b.p_purchase with
    | none => exact h5
    | some v => exact (clampf_mem v 0 1 c.p_purchase h5 h6 (by norm_num)).1
  · simp only [update_config]
    cases b.p_purchase with
    | none => exact h6
    | some v => exact (clampf_mem v 0 1 c.p_purchase h5 h6 (by norm_num)).2
  · simp only [update_config]
    cases b.duplicate_event_id_n with
    | none => exact h7
    | some v => exact clampp_nonneg v _ _ h7
  · simp only [update_config]
    cases b.drop_pixel_every_n with
    | none => exact h8
    | some v => exact clampp_nonneg v _ _ h8
  · simp only [update_config]
    cases b.net_capi_latency_ms with
    | none => exact h9
    | some v => exact clampp_nonneg v _ _ h9
  · simp only [update_config]
    cases b.clock_skew_seconds with
    | none => exact h10
    | some v => exact clampp_nonneg v _ _ h10
  · simp only [update_config]
    cases b.currency_override with
    | none => exact h11
    | some s₁ =>
      split
      · split
        · assumption
        · exact h11
      · exact h11
  · simp only [presets_reset_config]
    refine ⟨?_, ?_, ?_, ?_, ?_, ?_, ?_, ?_, ?_, ?_, ?_⟩ <;>
      norm_num [defaultConfig, allowed_currencies]

/-- C9 witness: a body with out-of-range and unparseable values applied to
the default config still yields an in-range config; seed set and reset do
too. -/
theorem c9_validated_mutations_witness :
    CfgValid (update_config defaultConfig bodySample) ∧
    CfgValid (set_seed defaultConfig "42") ∧
    CfgValid presets_reset_config :=
  c9_validated_mutations defaultConfig bodySample "42"
    (by
      refine ⟨?_, ?_, ?_, ?_, ?_, ?_, ?_, ?_, ?_, ?_, ?_⟩ <;>
        norm_num [defaultConfig, allowed_currencies])

/-- C9 counterexample: importing a preset whose `p_add_to_cart` is 5
replaces the config wholesale with no validation, leaving a funnel
probability outside [0,1] — the configuration is not mutated only through
validated, clamping operations. -/
theorem c9_import_no_validation_cex :
    (presets_import_config badPreset).p_add_to_cart = 5 ∧
    ¬ CfgValid (presets_import_config badPreset) := by
  refine ⟨rfl, ?_⟩
  intro h
  have h2 := h.2.1
  rw [show (presets_import_config badPreset).p_add_to_cart = 5 from rfl] at h2
  norm_num at h2

theorem lookupA_setA_self (k : String) (v : Val) (l : List (String × Val)) :
    lookupA k (setA k v l) = some v := by
  induction l with
  | nil => simp [setA, lookupA]
  | cons hd t ih =>
    obtain ⟨k₁, v₁⟩ := hd
    by_cases hk : k₁ = k
    · simp [setA, hk, lookupA]
    · simp [setA, hk, lookupA, ih]

theorem lookupA_setA_ne (k k₁ : String) (hk : k₁ ≠ k) (v : Val)
    (l : List (String × Val)) : lookupA k (setA k₁ v l) = lookupA k l := by
  induction l with
  | nil => simp [setA, lookupA, hk]
  | cons hd t ih =>
    obtain ⟨k₂, v₂⟩ := hd
    by_cases hk2 : k₂ = k₁
    · subst hk2
      simp [setA, lookupA, hk]
    · simp [setA, lookupA, hk2, ih]

theorem lookupA_strNumsObj (k : String) (l : List (String × Val)) :
    lookupA k (strNumsObj l) = (lookupA k l).map strNumsVal := by
  induction l with
  | nil => simp [strNumsObj, lookupA]
  | cons hd t ih =>
    obtain ⟨k₁, v₁⟩ := hd
    by_cases hk : k₁ = k
    · simp [strNumsObj, lookupA, hk]
    · simp [strNumsObj, lookupA, hk, ih]

theorem lookupA_eq_none_of_not_hasA (k : String) (l : List (String × Val))
    (h : hasA k l = false) : lookupA k l = none := by
  unfold hasA at h
  exact Option.not_isSome_iff_eq_none.mp (by simp [h])

theorem lookup_currency_bad_data_contents (cd : List (String × Val)) :
    lookupA "currency" (bad_data_contents cd) = lookupA "currency" cd := by
  unfold bad_data_contents
  split
  · exact lookupA_setA_ne _ _ (by decide) _ _
  · rfl

theorem lookup_currency_bad_data_price (cfg : Cfg) (cd : List (String × Val)) :
    lookupA "currency" (bad_data_price cfg cd) = lookupA "currency" cd := by
  unfold bad_data_price
  split
  · rw [lookup_currency_bad_data_contents]
    split
    · exact lookupA_setA_ne _ _ (by decide) _ _
    · rfl
  · rfl

theorem lookup_currency_bad_data_currency (cfg : Cfg)
    (cd : List (String × Val)) (hnc : cfg.null_currency = true) :
    lookupA "currency" (bad_data_currency cfg cd) =
      if hasA "currency" cd then some Val.null else none := by
  unfold bad_data_currency
  by_cases h : hasA "currency" cd
  · rw [if_pos (by simp [hnc, h]), if_pos h]
    exact lookupA_setA_self _ _ _
  · rw [if_neg (by simp [h]), if_neg h]
    exact lookupA_eq_none_of_not_hasA _ _ (by simpa using h)

theorem wire_currency_obj (fs cd : List (String × Val))
    (h : lookupA "custom_data" fs = some (.obj cd)) :
    wire_currency (.obj fs) = lookupA "currency" cd := by
  show (match lookupA "custom_data" fs with
        | some (.obj cd) => lookupA "currency" cd
        | _ => none) = lookupA "currency" cd
  rw [h]

theorem wire_currency_bad_data (cfg : Cfg) (ev : List (String × Val))
    (hnc : cfg.null_currency = true) :
    wire_currency (maybe_str_nums cfg (.obj (bad_data_ev cfg ev))) = some .null ∨
    wire_currency (maybe_str_nums cfg (.obj (bad_data_ev cfg ev))) = none := by
  set cd0 := match lookupA "custom_data"
      (if cfg.null_event_id then setA "event_id" .null ev else ev) with
    | some (.obj l₁) => l₁
    | _ => ([] : List (String × Val)) with hcd0
  have hkey : lookupA "custom_data" (bad_data_ev cfg ev) =
      some (.obj (bad_data_price cfg (bad_data_currency cfg cd0))) := by
    rw [hcd0]
    unfold bad_data_ev
    exact lookupA_setA_self _ _ _
  have hcur : lookupA "currency" (bad_data_price cfg (bad_data_currency cfg cd0)) =
      if hasA "currency" cd0 then some Val.null else none := by
    rw [lookup_currency_bad_data_price,
      lookup_currency_bad_data_currency cfg cd0 hnc]
  by_cases hs : cfg.schema_str_numbers
  · have hfs : maybe_str_nums cfg (.obj (bad_data_ev cfg ev)) =
        .obj (strNumsObj (bad_data_ev cfg ev)) := by
      unfold maybe_str_nums
      rw [if_pos hs]
      simp [strNumsVal]
    have hcd : lookupA "custom_data" (strNumsObj (bad_data_ev cfg ev)) =
        some (.obj (strNumsObj (bad_data_price cfg (bad_data_currency cfg cd0)))) := by
      rw [lookupA_strNumsObj, hkey]
      rfl
    rw [hfs, wire_currency_obj _ _ hcd, lookupA_strNumsObj, hcur]
    by_cases h : hasA "currency" cd0
    · rw [if_pos h]
      left
      rfl
    · rw [if_neg h]
      right
      rfl
  · have hfs : maybe_str_nums cfg (.obj (bad_data_ev cfg ev)) =
        .obj (bad_data_ev cfg ev) := by
      unfold maybe_str_nums
      rw [if_neg hs]
    rw [hfs, wire_currency_obj _ _ hkey, hcur]
    by_cases h : hasA "currency" cd0
    · rw [if_pos h]
      left
      rfl
    · rw [if_neg h]
      right
      rfl

/-- C5: whenever the server-channel null-currency flag is set, every wire
event produced by `map_sim_event_to_capi` whose custom_data carries a
currency field carries it as null, regardless of the currency_override
setting (null-injection runs after currency resolution and always wins). -/
theorem c5_null_currency_wins (cfg : Cfg) (e : SimEvent) (us : ℕ → ℚ)
    (evs : List Val) (ev : Val) (hnc : cfg.null_currency = true)
    (hmap : map_sim_event_to_capi e cfg us = .ok evs) (hmem : ev ∈ evs)
    (hcarries : wire_currency ev ≠ none) :
    wire_currency ev = some .null := by
  cases hcore : map_capi_core e cfg us with
  | error err =>
    rw [map_sim_event_to_capi, hcore] at hmap
    exact absurd hmap (by simp [Except.bind])
  | ok core =>
    rw [map_sim_event_to_capi, hcore] at hmap
    have hevs : evs = core.map fun l => maybe_str_nums cfg (.obj (bad_data_ev cfg l)) := by
      have : Except.ok (ε := String)
          (core.map fun l => maybe_str_nums cfg (.obj (bad_data_ev cfg l))) = .ok evs := hmap
      exact (Except.ok.injEq _ _ ▸ congrArg id this).symm ▸ by
        cases this
        rfl
    subst hevs
    obtain ⟨l, _, rfl⟩ := List.mem_map.mp hmem
    rcases wire_currency_bad_data cfg l hnc with h | h
    · exact h
    · exact absurd h hcarries

/-- C5 witness: the concrete `return_initiated` event mapped under the
null-currency flag with currency override "EUR" carries a null currency. -/
theorem c5_null_currency_wins_witness :
    wire_currency wireReturnEUR = some .null :=
  c5_null_currency_wins cfgNullCurEUR eventReturn usZero [wireReturnEUR]
    wireReturnEUR rfl (by with_unfolding_all rfl) (List.mem_singleton.mpr rfl)
    (by
      rw [show wire_currency wireReturnEUR = some Val.null from by
        with_unfolding_all rfl]
      exact Option.some_ne_none _)

theorem build_contents_isOk (ls : List LineItemV)
    (h : ∀ li ∈ ls, (intOfVal li.qty).isSome ∧ (floatOfVal li.price).isSome) :
    ∃ r, build_contents ls = .ok r := by
  induction ls with
  | nil => exact ⟨[], rfl⟩
  | cons li t ih =>
    obtain ⟨hq, hp⟩ := h li (List.mem_cons_self li t)
    obtain ⟨q, hq⟩ := Option.isSome_iff_exists.mp hq
    obtain ⟨p, hp⟩ := Option.isSome_iff_exists.mp hp
    obtain ⟨r, hr⟩ := ih fun li₁ h₁ => h li₁ (List.mem_cons_of_mem _ h₁)
    simp [build_contents, hq, hp, hr]

theorem except_pure_isOk {ε α : Type} (x : α) :
    (pure x : Except ε α).isOk = true := rfl

theorem except_ok_isOk {ε α : Type} (x : α) :
    (Except.ok x : Except ε α).isOk = true := rfl

theorem map_isOk_iff_core (e : SimEvent) (cfg : Cfg) (us : ℕ → ℚ) :
    (map_sim_event_to_capi e cfg us).isOk = (map_capi_core e cfg us).isOk := by
  unfold map_sim_event_to_capi
  cases map_capi_core e cfg us <;> rfl

/-- C4 (corrected): the server-channel mapping never raises on well-formed
events — timestamp present and parseable, stage payload fields present with
parseable numbers — for every config; malformed events (e.g. a missing
timestamp) make it raise instead (see the counterexample). -/
theorem c4_wellformed_no_throw (e : SimEvent) (cfg : Cfg) (us : ℕ → ℚ)
    (h : WellFormedEvent e) : (map_sim_event_to_capi e cfg us).isOk = true := by
  obtain ⟨⟨t, ht⟩, hpv, hatc, hbc, hpur⟩ := h
  rw [map_isOk_iff_core]
  by_cases h1 : e.event_type = some "page_view"
  · simp [map_capi_core, ht, h1, except_pure_isOk, except_ok_isOk]
  by_cases h2 : e.event_type = some "product_view"
  · obtain ⟨p, hp, hps⟩ := hpv h2
    obtain ⟨pq, hpq⟩ := Option.isSome_iff_exists.mp hps
    simp [map_capi_core, ht, h1, h2, hp, hpq, except_pure_isOk, except_ok_isOk]
  by_cases h3 : e.event_type = some "add_to_cart"
  · obtain ⟨li, hli, hqi, hqf, hpf⟩ := hatc h3
    obtain ⟨qi, hqi⟩ := Option.isSome_iff_exists.mp hqi
    obtain ⟨qf, hqf⟩ := Option.isSome_iff_exists.mp hqf
    obtain ⟨pf, hpf⟩ := Option.isSome_iff_exists.mp hpf
    simp [map_capi_core, ht, h1, h2, h3, hli, hqi, hqf, hpf, except_pure_isOk, except_ok_isOk]
  by_cases h4 : e.event_type = some "begin_checkout"
  · obtain ⟨⟨ls, hls, hall⟩, htot⟩ := hbc h4
    obtain ⟨r, hr⟩ := build_contents_isOk ls hall
    obtain ⟨tq, htq⟩ := Option.isSome_iff_exists.mp htot
    simp [map_capi_core, ht, h1, h2, h3, h4, hls, hr, htq, except_pure_isOk, except_ok_isOk]
  by_cases h5 : e.event_type = some "purchase"
  · obtain ⟨⟨ls, hls, hall⟩, htot⟩ := hpur h5
    obtain ⟨r, hr⟩ := build_contents_isOk ls hall
    obtain ⟨tq, htq⟩ := Option.isSome_iff_exists.mp htot
    simp [map_capi_core, ht, h1, h2, h3, h4, h5, hls, hr, htq, except_pure_isOk, except_ok_isOk]
  by_cases h6 : e.event_type = some "return_initiated"
  · simp [map_capi_core, ht, h1, h2, h3, h4, h5, h6, except_pure_isOk, except_ok_isOk]
  · simp [map_capi_core, ht, h1, h2, h3, h4, h5, h6, except_pure_isOk, except_ok_isOk]

/-- C4 witness: a concrete well-formed page_view event maps without
raising. -/
theorem c4_wellformed_no_throw_witness :
    (map_sim_event_to_capi eventPageView defaultConfig usZero).isOk = true :=
  c4_wellformed_no_throw eventPageView defaultConfig usZero
    (by
      refine ⟨⟨1700000000, rfl⟩, ?_, ?_, ?_, ?_⟩ <;>
        (intro hx; simp [eventPageView] at hx))

/-- C4 counterexample: on a malformed event whose dict lacks the
`timestamp` key, `map_sim_event_to_capi` raises (KeyError from
`iso_to_unix(e["timestamp"])`) instead of emitting a wire event with a
null field. -/
theorem c4_missing_timestamp_cex :
    map_sim_event_to_capi eventNoTimestamp defaultConfig usZero =
      .error "KeyError: timestamp" := rfl

end MetaDemo
